import Mathlib

/-!
Shallow embedding of `nifty_monthly.py`: the expiry-day snapshot pipeline
(strike-range derivation, contract filtering, fetch-with-retry workers, the
per-index fetch stage, and the per-index orchestration loop), together with
theorems settling the specification claims.  Prices and strikes are modelled
with exact rational arithmetic; calendar dates with a concrete
day/month/year record (the script stores expiries as `%d-%b-%Y` strings and
parses/formats them with that single format, so the column is modelled by
its parsed date value).
-/

namespace NiftyMonthly

/-- `MAX_RETRIES = 3` from the CONFIG section of the script. -/
def MAX_RETRIES : ℕ := 3

/-- One entry of `SYMBOL_CONFIG`: per-index immutable configuration. -/
structure SymbolConfig where
  token : String
  strike_multiple : ℚ
  round_function : ℚ
  buffer : ℚ
deriving DecidableEq, Repr

/-- The `SYMBOL_CONFIG` table of the script. -/
def SYMBOL_CONFIG : List (String × SymbolConfig) :=
  [("BANKNIFTY", ⟨"99926009", 100, 100, 1000⟩),
   ("FINNIFTY", ⟨"99926037", 50, 50, 500⟩),
   ("MIDCPNIFTY", ⟨"99926074", 25, 25, 150⟩)]

/-- `round_down_to_multiple(price, multiple) = math.floor(price / multiple) * multiple`. -/
def round_down_to_multiple (price multiple : ℚ) : ℚ :=
  (⌊price / multiple⌋ : ℚ) * multiple

/-- `round_up_to_multiple(price, multiple) = math.ceil(price / multiple) * multiple`. -/
def round_up_to_multiple (price multiple : ℚ) : ℚ :=
  (⌈price / multiple⌉ : ℚ) * multiple

/-- The dictionary returned by `get_historical_data` on success:
`min_low`, `max_high` and `current_close` of the daily candle window. -/
structure HistoricalSummary where
  min_low : ℚ
  max_high : ℚ
  current_close : ℚ
deriving DecidableEq, Repr

/-- `calculate_strike_range(smart_api, symbol_config, buffer=None)`.
The call to `get_historical_data` inside it is an external fetch; its result
(`None` or a summary dictionary) is taken here as the `hist` argument.  The
code resolves the buffer default, returns `(None, None)` when the history is
unavailable, and otherwise floors/ceils the buffered extremes to the
`round_function` granularity, clamping the lower endpoint with `max(0, start)`. -/
def calculate_strike_range (hist : Option HistoricalSummary) (cfg : SymbolConfig)
    (buffer? : Option ℚ) : Option ℚ × Option ℚ :=
  let buffer := buffer?.getD cfg.buffer
  match hist with
  | none => (none, none)
  | some h =>
    let multiple := cfg.round_function
    let start := round_down_to_multiple (h.min_low - buffer) multiple
    let stop := round_up_to_multiple (h.max_high + buffer) multiple
    (some (max 0 start), some stop)

/-- A calendar date (the value of `pd.to_datetime(..., format="%d-%b-%Y").dt.date`). -/
structure PDate where
  year : ℕ
  month : ℕ
  day : ℕ
deriving DecidableEq, Repr

/-- One row of the symbol-master table, restricted to the columns the script
reads.  `Expiry` is stored in the CSV as a `%d-%b-%Y` string; the script only
ever parses it with that format (`is_today_expiry`) or compares it against
`expiry_date.strftime("%d-%b-%Y").upper()` (`get_option_symbols`), so the
column is modelled by its parsed date.  `StrikePrice` is the result of
`pd.to_numeric(..., errors="coerce")`: `none` models a `NaN` from a
non-numeric cell, which fails every numeric comparison in the filter. -/
structure ContractRow where
  Symbol : String
  Instrument : String
  Expiry : PDate
  StrikePrice : Option ℚ
  TradingSymbol : String
  Token : String
deriving DecidableEq, Repr

/-- `is_today_expiry(df, symbol)`: restrict to the symbol's OPTIDX rows and
test whether today's date occurs among their expiries; returns the flag
together with today's date, exactly as the script returns `(…, today)`. -/
def is_today_expiry (df : List ContractRow) (symbol : String) (today : PDate) :
    Bool × PDate :=
  ((df.filter (fun r => r.Symbol == symbol && r.Instrument == "OPTIDX")).any
      (fun r => r.Expiry == today),
   today)

/-- Python's `x % m` on exact numbers: `x - floor(x / m) * m`. -/
def pymod (x m : ℚ) : ℚ :=
  x - (⌊x / m⌋ : ℚ) * m

/-- `get_option_symbols(df, symbol, expiry_date, start, end, strike_multiple)`:
first filter by symbol, instrument class and exact expiry equality, then
coerce `StrikePrice` to numeric and keep the strikes inside `[start, end]`
that are exact multiples of `strike_multiple`. -/
def get_option_symbols (df : List ContractRow) (symbol : String) (expiry_date : PDate)
    (start stop : ℚ) (strike_multiple : ℚ) : List ContractRow :=
  let df1 := df.filter (fun r =>
    r.Symbol == symbol && r.Instrument == "OPTIDX" && r.Expiry == expiry_date)
  df1.filter (fun r =>
    match r.StrikePrice with
    | some s => decide (start ≤ s) && decide (s ≤ stop) && (pymod s strike_multiple == 0)
    | none => false)

/-- One raw row of a provider candle response (`resp["data"]` element):
a list of raw field values. -/
abbrev RawRow := List String

/-- A provider response dictionary: its `status` flag and `data` row list. -/
structure CandleResp where
  status : Bool
  data : List RawRow
deriving DecidableEq, Repr

/-- One call to `smart.getCandleData(params)` during attempt `i`:
`Except.error ()` models a raised exception, `Except.ok none` a falsy/`None`
response, `Except.ok (some r)` a response dictionary. -/
def get_candles_loop (attempt : ℕ → Except Unit (Option CandleResp)) :
    ℕ → ℕ → Option CandleResp
  | _, 0 => none
  | i, fuel + 1 =>
    match attempt i with
    | Except.ok (some r) =>
      if r.status then some r else get_candles_loop attempt (i + 1) fuel
    | _ => get_candles_loop attempt (i + 1) fuel

/-- `get_candles_with_retry(smart, params)`: up to `MAX_RETRIES` attempts,
returning the first truthy-status response and `None` when the budget is
exhausted; a raised exception or a falsy/not-ok response just moves on to the
next attempt (the `time.sleep` delays have no observable effect on the
result). -/
def get_candles_with_retry (attempt : ℕ → Except Unit (Option CandleResp)) :
    Option CandleResp :=
  get_candles_loop attempt 0 MAX_RETRIES

/-- The width condition of `pd.DataFrame(data, columns=[six names])` on a
non-empty list of lists: ragged short rows are padded with `None` (modelled
by `""`) up to the maximum row width, and the constructor raises exactly when
that maximum width is not 6.  Only the constructor's width check is modelled
here — the later uncaught `pd.to_datetime` on the Date column can raise on
inputs this check accepts — so this instance serves to exhibit concrete
inputs on which the real conversion raises, not to characterize every raise
of the pipeline. -/
def dataframe_conversion (rows : List RawRow) : Except Unit (List RawRow) :=
  if (rows.map List.length).foldr max 0 == 6 then
    Except.ok (rows.map (fun row => row ++ List.replicate (6 - row.length) ""))
  else Except.error ()

/-- `download_symbol(args)` for one contract row: run the retry loop, and on a
truthy response with a non-empty `data` list run the conversion/serialization
step, returning `(symbol, bytes, None)`; otherwise return
`(symbol, None, "No data")`.  The conversion step
(`pd.DataFrame(r["data"], columns=[six names])`, `pd.to_datetime` on the Date
column, `ExcelWriter`) is an external pandas/openpyxl pipeline whose exact
failure conditions (`None`-padding of ragged rows, flexible date parsing)
lie outside the embedding, so it is the `convert` argument: an arbitrary
function that either returns the serialized workbook bytes or raises.  An
exception it raises propagates out of `download_symbol` (there is no `try`
around it), and a serialized workbook is never an empty byte string. -/
def download_symbol (convert : List RawRow → Except Unit (List RawRow))
    (attempt : ℕ → Except Unit (Option CandleResp)) (row : ContractRow) :
    Except Unit (String × Option (List RawRow) × Option String) :=
  let symbol := row.TradingSymbol
  match get_candles_with_retry attempt with
  | some r =>
    if r.data.isEmpty then Except.ok (symbol, none, some "No data")
    else
      match convert r.data with
      | Except.ok bytes => Except.ok (symbol, some bytes, none)
      | Except.error e => Except.error e
  | none => Except.ok (symbol, none, some "No data")

/-- The result-collection loop of `process_index`'s fetch stage, processing
worker completions one at a time: a `(symbol, data, err)` outcome with data
appends one zip entry and records a success; an outcome without data records
a failure; an exception re-raised by `future.result()` aborts the stage.
The accumulator is `(zip entries, index_success, index_failed)`. -/
def fetch_loop
    (worker : ContractRow → Except Unit (String × Option (List RawRow) × Option String)) :
    List ContractRow →
    List (String × List RawRow) × List String × List String →
    Except Unit (List (String × List RawRow) × List String × List String)
  | [], acc => Except.ok acc
  | row :: rest, (zip_entries, index_success, index_failed) =>
    match worker row with
    | Except.error e => Except.error e
    | Except.ok (symbol, some bytes, _err) =>
      fetch_loop worker rest
        (zip_entries ++ [(symbol, bytes)], index_success ++ [symbol], index_failed)
    | Except.ok (symbol, none, _err) =>
      fetch_loop worker rest (zip_entries, index_success, index_failed ++ [symbol])

/-- The fetch stage of `process_index` over one completion order of the
submitted contracts, starting from empty accumulators. -/
def fetchStage
    (worker : ContractRow → Except Unit (String × Option (List RawRow) × Option String))
    (rows : List ContractRow) :
    Except Unit (List (String × List RawRow) × List String × List String) :=
  fetch_loop worker rows ([], [], [])

/-- Observable trace of one `process_index` call: its return value (or the
exception it re-raises), how many times it invoked `calculate_strike_range`,
and how many times it invoked `get_option_symbols`. -/
structure ProcTrace where
  result : Except Unit (Option (List (String × List RawRow)))
  rangeCalls : ℕ
  filterCalls : ℕ
deriving Repr

/-- `process_index(smart, df_master, symbol_name, symbol_config)`: skip unless
today is the symbol's expiry; compute the strike range (skip when an endpoint
is `None`); filter the option symbols (skip when empty); run the fetch stage;
return the zip bytes when at least one contract succeeded, else `None`.
External data (today's date, the historical summary, the per-contract worker
behaviour) are inputs; the zip bytes are modelled by the entry list. -/
def process_index (df_master : List ContractRow) (symbol_name : String)
    (cfg : SymbolConfig) (today : PDate) (hist : Option HistoricalSummary)
    (worker : ContractRow → Except Unit (String × Option (List RawRow) × Option String)) :
    ProcTrace :=
  let is_expiry := (is_today_expiry df_master symbol_name today).1
  let expiry := (is_today_expiry df_master symbol_name today).2
  if is_expiry then
    match calculate_strike_range hist cfg none with
    | (some start, some stop) =>
      let df := get_option_symbols df_master symbol_name expiry start stop cfg.strike_multiple
      if df.isEmpty then ⟨Except.ok none, 1, 1⟩
      else
        match fetchStage worker df with
        | Except.error e => ⟨Except.error e, 1, 1⟩
        | Except.ok (zip_entries, index_success, _index_failed) =>
          if index_success.isEmpty then ⟨Except.ok none, 1, 1⟩
          else ⟨Except.ok (some zip_entries), 1, 1⟩
    | _ => ⟨Except.ok none, 1, 0⟩
  else ⟨Except.ok none, 0, 0⟩

/-- What `main`'s per-index loop body does with one index, as observable from
outside: an archive was produced and handed to delivery, there was nothing to
send, or an exception was caught and logged. -/
inductive IndexOutcome (A : Type) where
  | sent : A → IndexOutcome A
  | nothingToSend : IndexOutcome A
  | errorLogged : IndexOutcome A
deriving DecidableEq, Repr

/-- The `for symbol_name, symbol_config in SYMBOL_CONFIG.items()` loop of
`main`: each index is processed inside `try/except Exception` with
`continue`, so an exception from one index is logged and the loop moves on.
`proc` is the body (process the index and deliver its archive). -/
def main_loop {A : Type} (proc : String → Except Unit (Option A)) :
    List String → List (String × IndexOutcome A)
  | [] => []
  | s :: rest =>
    (match proc s with
     | Except.error _ => (s, IndexOutcome.errorLogged)
     | Except.ok none => (s, IndexOutcome.nothingToSend)
     | Except.ok (some a) => (s, IndexOutcome.sent a)) :: main_loop proc rest

end NiftyMonthly

namespace NiftyMonthly

/-- Rewriting ceilings as floors, so that concrete ceilings evaluate. -/
theorem ceil_eq_neg_floor (a : ℚ) : (⌈a⌉ : ℤ) = -⌊-a⌋ := by
  rw [Int.floor_neg, neg_neg]

/-- `round_down_to_multiple` never exceeds its input (positive multiple). -/
theorem round_down_le (x m : ℚ) (hm : 0 < m) : round_down_to_multiple x m ≤ x := by
  rw [round_down_to_multiple, ← le_div_iff hm]
  exact Int.floor_le _

/-- `round_up_to_multiple` is at least its input (positive multiple). -/
theorem le_round_up (x m : ℚ) (hm : 0 < m) : x ≤ round_up_to_multiple x m := by
  rw [round_up_to_multiple, ← div_le_iff hm]
  exact Int.le_ceil _

/-- `round_down_to_multiple x m` dominates every multiple of `m` below `x`. -/
theorem round_down_greatest (x m : ℚ) (hm : 0 < m) (k : ℤ) (hk : (k : ℚ) * m ≤ x) :
    (k : ℚ) * m ≤ round_down_to_multiple x m := by
  rw [round_down_to_multiple]
  have h2 : k ≤ ⌊x / m⌋ := Int.le_floor.mpr ((le_div_iff hm).mpr hk)
  exact mul_le_mul_of_nonneg_right (by exact_mod_cast h2) hm.le

/-- `round_up_to_multiple x m` is below every multiple of `m` above `x`. -/
theorem round_up_least (x m : ℚ) (hm : 0 < m) (k : ℤ) (hk : x ≤ (k : ℚ) * m) :
    round_up_to_multiple x m ≤ (k : ℚ) * m := by
  rw [round_up_to_multiple]
  have h2 : ⌈x / m⌉ ≤ k := Int.ceil_le.mpr ((div_le_iff hm).mpr hk)
  exact mul_le_mul_of_nonneg_right (by exact_mod_cast h2) hm.le

/-- Claim C10: over exact arithmetic, `round_down_to_multiple x m` is the
greatest multiple of `m` that is `≤ x`, and `round_up_to_multiple x m` is the
least multiple of `m` that is `≥ x`, for every price `x` and positive
multiple `m`. -/
theorem C10_round_to_multiple_exact (x m : ℚ) (hm : 0 < m) :
    ((∃ k : ℤ, round_down_to_multiple x m = (k : ℚ) * m) ∧
      round_down_to_multiple x m ≤ x ∧
      (∀ k : ℤ, (k : ℚ) * m ≤ x → (k : ℚ) * m ≤ round_down_to_multiple x m)) ∧
    ((∃ k : ℤ, round_up_to_multiple x m = (k : ℚ) * m) ∧
      x ≤ round_up_to_multiple x m ∧
      (∀ k : ℤ, x ≤ (k : ℚ) * m → round_up_to_multiple x m ≤ (k : ℚ) * m)) := by
  refine ⟨⟨⟨⌊x / m⌋, rfl⟩, round_down_le x m hm, fun k hk => round_down_greatest x m hm k hk⟩,
    ⟨⌈x / m⌉, rfl⟩, le_round_up x m hm, fun k hk => round_up_least x m hm k hk⟩

/-- Concrete instance of C10 with the hypothesis discharged. -/
theorem C10_round_to_multiple_exact_witness :
    (0 : ℚ) < 2 ∧ round_down_to_multiple 7 2 ≤ 7 ∧ (7 : ℚ) ≤ round_up_to_multiple 7 2 :=
  ⟨by norm_num, (C10_round_to_multiple_exact 7 2 (by norm_num)).1.2.1,
    (C10_round_to_multiple_exact 7 2 (by norm_num)).2.2.1⟩

/-- Evaluation of the strike-range computation at the BANKNIFTY
configuration (`step = 100`, `buffer = 1000`) on the summary
`min_low = 50230`, `max_high = 51870`. -/
theorem calc_range_eval_bank :
    calculate_strike_range (some ⟨50230, 51870, 51500⟩) ⟨"99926009", 100, 100, 1000⟩ none =
      (some 49200, some 52900) := by
  simp only [calculate_strike_range, round_down_to_multiple, round_up_to_multiple, Option.getD,
    Prod.mk.injEq, Option.some.injEq]
  norm_num [ceil_eq_neg_floor, max_def]

end NiftyMonthly

namespace NiftyMonthly

/-- The clamped lower endpoint is still an exact multiple of the step. -/
theorem max_zero_round_down_multiple (x m : ℚ) :
    ∃ k : ℤ, max 0 (round_down_to_multiple x m) = (k : ℚ) * m := by
  rcases le_total (round_down_to_multiple x m) 0 with hc | hc
  · exact ⟨0, by rw [max_eq_left hc]; simp⟩
  · exact ⟨⌊x / m⌋, by rw [max_eq_right hc]; rfl⟩

/-- Claim C1 as frozen is false on the code: at
`min_low = 0`, `max_high = 0`, `buffer = 1000`, `step = 100` (an input with
`min_low ≤ max_high` and positive step) the computed low is the clamp value
`0`, which is not `≤ min_low − buffer + step = −900`. -/
theorem C1_floor_bound_counterexample :
    calculate_strike_range (some ⟨0, 0, 0⟩) ⟨"99926009", 100, 100, 1000⟩ none =
      (some 0, some 1000) ∧ ¬ ((0 : ℚ) ≤ 0 - 1000 + 100) := by
  constructor
  · simp only [calculate_strike_range, round_down_to_multiple, round_up_to_multiple,
      Option.getD, Prod.mk.injEq, Option.some.injEq]
    norm_num [ceil_eq_neg_floor, max_def]
  · norm_num

/-- Claim C1 (amended): for every input with `min_low ≤ max_high` and positive
step, the strike range satisfies: `low` is a multiple of the step, `high` is a
multiple of the step, `low ≤ max 0 (min_low − buffer + step)` (the code clamps
the floored endpoint at 0, which can lift it above `min_low − buffer + step`),
`high ≥ max_high + buffer`, and `low ≥ 0`. -/
theorem C1_strike_range_bounds (h : HistoricalSummary) (cfg : SymbolConfig)
    (low high : ℚ) (hmm : h.min_low ≤ h.max_high) (hstep : 0 < cfg.round_function)
    (heq : calculate_strike_range (some h) cfg none = (some low, some high)) :
    (∃ k : ℤ, low = (k : ℚ) * cfg.round_function) ∧
    (∃ k : ℤ, high = (k : ℚ) * cfg.round_function) ∧
    low ≤ max 0 (h.min_low - cfg.buffer + cfg.round_function) ∧
    h.max_high + cfg.buffer ≤ high ∧
    0 ≤ low := by
  simp only [calculate_strike_range, Option.getD, Prod.mk.injEq, Option.some.injEq] at heq
  obtain ⟨h1, h2⟩ := heq
  subst h1
  subst h2
  refine ⟨max_zero_round_down_multiple _ _, ⟨⌈(h.max_high + cfg.buffer) / cfg.round_function⌉, rfl⟩,
    ?_, le_round_up _ _ hstep, le_max_left _ _⟩
  exact max_le_max le_rfl
    (le_trans (round_down_le _ _ hstep) (le_add_of_nonneg_right hstep.le))

/-- Concrete instance of the amended C1 with the hypotheses discharged. -/
theorem C1_strike_range_bounds_witness :
    (∃ k : ℤ, (49200 : ℚ) = (k : ℚ) * 100) ∧
    (∃ k : ℤ, (52900 : ℚ) = (k : ℚ) * 100) ∧
    (49200 : ℚ) ≤ max 0 (50230 - 1000 + 100) ∧
    (51870 : ℚ) + 1000 ≤ 52900 ∧
    (0 : ℚ) ≤ 49200 :=
  C1_strike_range_bounds ⟨50230, 51870, 51500⟩ ⟨"99926009", 100, 100, 1000⟩ 49200 52900
    (by norm_num) (by norm_num) calc_range_eval_bank

/-- Claim C2 as frozen is false on the code: with `step = 100`,
`buffer = 1000`, `min_low = 50230`, `max_high = 51870` the code returns
`low = floor(49230 / 100) * 100 = 49200`, not the `49100` the scenario
states. -/
theorem C2_scenario_counterexample :
    calculate_strike_range (some ⟨50230, 51870, 51500⟩) ⟨"99926009", 100, 100, 1000⟩ none ≠
      (some 49100, some 52900) := by
  rw [calc_range_eval_bank]
  intro hcontra
  simp only [Prod.mk.injEq, Option.some.injEq] at hcontra
  exact absurd hcontra.1 (by norm_num)

/-- Claim C2 (amended): for `step = 100`, `buffer = 1000`, `min_low = 50230`,
`max_high = 51870`, the strike-range computation returns `low = 49200` and
`high = 52900`. -/
theorem C2_strike_range_scenario :
    calculate_strike_range (some ⟨50230, 51870, 51500⟩) ⟨"99926009", 100, 100, 1000⟩ none =
      (some 49200, some 52900) :=
  calc_range_eval_bank

end NiftyMonthly

namespace NiftyMonthly

/-- Claim C9 as frozen is false on the code: the computed range can invert
when the summary itself is degenerate.  At `min_low = 1000`, `max_high = 0`,
`buffer = 0`, `step = 100` both endpoints are present but `low = 1000 > 0 =
high` (nothing in `calculate_strike_range` checks `min_low ≤ max_high`). -/
theorem C9_low_le_high_counterexample :
    calculate_strike_range (some ⟨1000, 0, 0⟩) ⟨"99926009", 100, 100, 0⟩ none =
      (some 1000, some 0) ∧ ¬ ((1000 : ℚ) ≤ 0) := by
  constructor
  · simp only [calculate_strike_range, round_down_to_multiple, round_up_to_multiple,
      Option.getD, Prod.mk.injEq, Option.some.injEq]
    norm_num [ceil_eq_neg_floor, max_def]
  · norm_num

/-- Claim C9 (amended): whenever the historical summary is non-degenerate
(`min_low ≤ max_high`, `0 ≤ max_high`) and the configuration is valid
(`0 ≤ buffer`, positive step), a present range satisfies `low ≤ high`; and
whenever either endpoint is absent, `process_index` never reaches the
contract-filtering step. -/
theorem C9_range_invariant :
    (∀ (h : HistoricalSummary) (cfg : SymbolConfig) (low high : ℚ),
      h.min_low ≤ h.max_high → 0 ≤ cfg.buffer → 0 < cfg.round_function → 0 ≤ h.max_high →
      calculate_strike_range (some h) cfg none = (some low, some high) → low ≤ high) ∧
    (∀ (df : List ContractRow) (symbol : String) (cfg : SymbolConfig) (today : PDate)
      (hist : Option HistoricalSummary)
      (worker : ContractRow → Except Unit (String × Option (List RawRow) × Option String)),
      ((calculate_strike_range hist cfg none).1 = none ∨
        (calculate_strike_range hist cfg none).2 = none) →
      (process_index df symbol cfg today hist worker).filterCalls = 0) := by
  constructor
  · intro h cfg low high hmm hbuf hstep hmh heq
    simp only [calculate_strike_range, Option.getD, Prod.mk.injEq, Option.some.injEq] at heq
    obtain ⟨h1, h2⟩ := heq
    subst h1
    subst h2
    have hstart : round_down_to_multiple (h.min_low - cfg.buffer) cfg.round_function ≤
        round_up_to_multiple (h.max_high + cfg.buffer) cfg.round_function :=
      le_trans (round_down_le _ _ hstep)
        (le_trans (by linarith) (le_round_up _ _ hstep))
    have hzero : (0 : ℚ) ≤ round_up_to_multiple (h.max_high + cfg.buffer) cfg.round_function :=
      le_trans (by linarith) (le_round_up _ _ hstep)
    exact max_le hzero hstart
  · intro df symbol cfg today hist worker hnone
    rcases hist with _ | h
    · by_cases hex : (is_today_expiry df symbol today).1
      · simp [process_index, hex, calculate_strike_range]
      · simp [process_index, hex]
    · exfalso
      rcases hnone with hnone | hnone <;>
        simp [calculate_strike_range] at hnone

/-- Concrete instance of the amended C9 with the hypotheses discharged. -/
theorem C9_range_invariant_witness :
    (49200 : ℚ) ≤ 52900 ∧
    (process_index [] "BANKNIFTY" ⟨"99926009", 100, 100, 1000⟩ ⟨2024, 12, 26⟩ none
      (fun r => Except.ok (r.TradingSymbol, none, some "No data"))).filterCalls = 0 :=
  ⟨C9_range_invariant.1 ⟨50230, 51870, 51500⟩ ⟨"99926009", 100, 100, 1000⟩ 49200 52900
      (by norm_num) (by norm_num) (by norm_num) (by norm_num) calc_range_eval_bank,
    C9_range_invariant.2 [] "BANKNIFTY" ⟨"99926009", 100, 100, 1000⟩ ⟨2024, 12, 26⟩ none
      (fun r => Except.ok (r.TradingSymbol, none, some "No data"))
      (Or.inl (by simp [calculate_strike_range]))⟩

end NiftyMonthly

namespace NiftyMonthly

/-- Python's `s % m == 0` over exact numbers says exactly that `s` is an
integer multiple of `m` (for `m ≠ 0`). -/
theorem pymod_eq_zero_iff (s m : ℚ) (hm : m ≠ 0) :
    pymod s m = 0 ↔ ∃ k : ℤ, s = (k : ℚ) * m := by
  rw [pymod, sub_eq_zero]
  constructor
  · intro h
    exact ⟨⌊s / m⌋, h⟩
  · rintro ⟨k, rfl⟩
    rw [mul_div_cancel_right₀ _ hm, Int.floor_intCast]

/-- Claim C3: `get_option_symbols` returns exactly the rows of the reference
table whose instrument class is `OPTIDX`, whose symbol is the requested
index, whose expiry equals the requested date exactly, and whose
(numeric-coercible) strike lies in `[start, stop]` and is an exact multiple
of the strike step; no other row is returned. -/
theorem C3_get_option_symbols_mem (df : List ContractRow) (symbol : String) (d : PDate)
    (start stop m : ℚ) (hm : 0 < m) (r : ContractRow) :
    r ∈ get_option_symbols df symbol d start stop m ↔
      (r ∈ df ∧ r.Instrument = "OPTIDX" ∧ r.Symbol = symbol ∧ r.Expiry = d ∧
        ∃ s : ℚ, r.StrikePrice = some s ∧ start ≤ s ∧ s ≤ stop ∧
          ∃ k : ℤ, s = (k : ℚ) * m) := by
  simp only [get_option_symbols, List.mem_filter, Bool.and_eq_true, beq_iff_eq,
    decide_eq_true_eq]
  rcases hsp : r.StrikePrice with _ | s
  · simp [hsp]
  · simp only [hsp, Bool.and_eq_true, decide_eq_true_eq, beq_iff_eq,
      pymod_eq_zero_iff s m (ne_of_gt hm), Option.some.injEq]
    constructor
    · rintro ⟨⟨hdf, ⟨hsym, hinst⟩, hexp⟩, ⟨hge, hle⟩, hk⟩
      exact ⟨hdf, hinst, hsym, hexp, s, rfl, hge, hle, hk⟩
    · rintro ⟨hdf, hinst, hsym, hexp, s1, rfl, hge, hle, hk⟩
      exact ⟨⟨hdf, ⟨hsym, hinst⟩, hexp⟩, ⟨hge, hle⟩, hk⟩

/-- Concrete instance of C3 with the hypothesis discharged: a matching row is
returned. -/
theorem C3_get_option_symbols_mem_witness :
    (⟨"BANKNIFTY", "OPTIDX", ⟨2024, 12, 26⟩, some 49300, "BANKNIFTY26DEC24", "123"⟩ :
        ContractRow) ∈
      get_option_symbols
        [⟨"BANKNIFTY", "OPTIDX", ⟨2024, 12, 26⟩, some 49300, "BANKNIFTY26DEC24", "123"⟩]
        "BANKNIFTY" ⟨2024, 12, 26⟩ 49200 52900 100 :=
  (C3_get_option_symbols_mem _ _ _ _ _ _ (by norm_num) _).mpr
    ⟨List.mem_singleton_self _, rfl, rfl, rfl, 49300, rfl, by norm_num, by norm_num, 493,
      by norm_num⟩

end NiftyMonthly

namespace NiftyMonthly

/-- Bookkeeping of the result-collection loop: every processed contract lands
in exactly one of the success/failure lists, and zip entries track successes
one-for-one. -/
theorem fetch_loop_counts
    (worker : ContractRow → Except Unit (String × Option (List RawRow) × Option String))
    (rows : List ContractRow) :
    ∀ (zs : List (String × List RawRow)) (ss fs : List String)
      (z : List (String × List RawRow)) (s f : List String),
      fetch_loop worker rows (zs, ss, fs) = Except.ok (z, s, f) →
      s.length + f.length = ss.length + fs.length + rows.length ∧
      z.length + ss.length = s.length + zs.length := by
  induction rows with
  | nil =>
    intro zs ss fs z s f h
    simp only [fetch_loop, Except.ok.injEq, Prod.mk.injEq] at h
    obtain ⟨h1, h2, h3⟩ := h
    subst h1
    subst h2
    subst h3
    simp only [List.length_nil]
    omega
  | cons row rest ih =>
    intro zs ss fs z s f h
    simp only [fetch_loop] at h
    rcases hw : worker row with e | ⟨symbol, data?, err⟩ <;> rw [hw] at h
    · cases h
    · rcases data? with _ | bytes
      · obtain ⟨h1, h2⟩ := ih zs ss (fs ++ [symbol]) z s f h
        simp only [List.length_append, List.length_cons, List.length_nil] at h1 h2 ⊢
        omega
      · obtain ⟨h1, h2⟩ := ih (zs ++ [(symbol, bytes)]) (ss ++ [symbol]) fs z s f h
        simp only [List.length_append, List.length_cons, List.length_nil] at h1 h2 ⊢
        omega

/-- Claim C4: whenever the fetch stage of `process_index` completes over any
completion order of the submitted contracts, the number of contracts recorded
as succeeded plus the number recorded as failed equals the number of
contracts submitted — no contract is left without an outcome. -/
theorem C4_fetch_outcomes_total
    (worker : ContractRow → Except Unit (String × Option (List RawRow) × Option String))
    (submitted order : List ContractRow) (hperm : order.Perm submitted)
    (z : List (String × List RawRow)) (s f : List String)
    (h : fetchStage worker order = Except.ok (z, s, f)) :
    s.length + f.length = submitted.length := by
  obtain ⟨h1, _⟩ := fetch_loop_counts worker order [] [] [] z s f h
  simpa [hperm.length_eq] using h1

/-- Concrete instance of C4 with the hypotheses discharged. -/
theorem C4_fetch_outcomes_total_witness :
    (["X26DEC24C"] : List String).length + ([] : List String).length =
      ([⟨"BANKNIFTY", "OPTIDX", ⟨2024, 12, 26⟩, some 49300, "X26DEC24C", "1"⟩] :
        List ContractRow).length :=
  C4_fetch_outcomes_total
    (fun r => Except.ok (r.TradingSymbol, some [["d", "o", "h", "l", "c", "v"]], none))
    [⟨"BANKNIFTY", "OPTIDX", ⟨2024, 12, 26⟩, some 49300, "X26DEC24C", "1"⟩]
    [⟨"BANKNIFTY", "OPTIDX", ⟨2024, 12, 26⟩, some 49300, "X26DEC24C", "1"⟩]
    (List.Perm.refl _)
    [("X26DEC24C", [["d", "o", "h", "l", "c", "v"]])] ["X26DEC24C"] [] rfl

/-- Claim C5: the archive produced by the fetch stage has exactly one entry
per contract recorded as succeeded, and a fetch whose response carries an
empty candle series yields the typed "No data" failure outcome (so it is
recorded as a failure and adds no archive entry). -/
theorem C5_archive_matches_successes :
    (∀ (worker : ContractRow → Except Unit (String × Option (List RawRow) × Option String))
      (rows : List ContractRow) (z : List (String × List RawRow)) (s f : List String),
      fetchStage worker rows = Except.ok (z, s, f) → z.length = s.length) ∧
    (∀ (convert : List RawRow → Except Unit (List RawRow))
      (attempt : ℕ → Except Unit (Option CandleResp)) (row : ContractRow) (r : CandleResp),
      get_candles_with_retry attempt = some r → r.data = [] →
      download_symbol convert attempt row =
        Except.ok (row.TradingSymbol, none, some "No data")) := by
  constructor
  · intro worker rows z s f h
    obtain ⟨_, h2⟩ := fetch_loop_counts worker rows [] [] [] z s f h
    simpa using h2
  · intro convert attempt row r hr hdata
    simp [download_symbol, hr, hdata]

/-- Concrete instance of C5 with the hypotheses discharged. -/
theorem C5_archive_matches_successes_witness :
    download_symbol dataframe_conversion (fun _ => Except.ok (some ⟨true, []⟩))
      ⟨"BANKNIFTY", "OPTIDX", ⟨2024, 12, 26⟩, some 49300, "X26DEC24C", "1"⟩ =
      Except.ok ("X26DEC24C", none, some "No data") :=
  C5_archive_matches_successes.2 dataframe_conversion (fun _ => Except.ok (some ⟨true, []⟩))
    ⟨"BANKNIFTY", "OPTIDX", ⟨2024, 12, 26⟩, some 49300, "X26DEC24C", "1"⟩
    ⟨true, []⟩ rfl rfl

end NiftyMonthly

namespace NiftyMonthly

/-- The retry loop only ever consults the attempts it has fuel for. -/
theorem get_candles_loop_congr (a b : ℕ → Except Unit (Option CandleResp)) :
    ∀ (fuel i : ℕ), (∀ j, j < i + fuel → a j = b j) →
      get_candles_loop a i fuel = get_candles_loop b i fuel
  | 0, _, _ => rfl
  | fuel + 1, i, h => by
    have hi : a i = b i := h i (by omega)
    have hrec := get_candles_loop_congr a b fuel (i + 1) (fun j hj => h j (by omega))
    simp only [get_candles_loop, hi]
    rcases b i with e | ro
    · exact hrec
    · rcases ro with _ | r
      · exact hrec
      · by_cases hst : r.status
        · simp [hst]
        · simp [hst, hrec]

/-- Claim C6 as frozen is false on the code: a status-ok response whose data
consists of a lone 2-field row makes `pd.DataFrame(..., columns=[six names])`
raise (maximum row width 2 against the 6 columns passed, so nothing is
padded), and the exception escapes `download_symbol` on the very first
attempt. -/
theorem C6_worker_raises_counterexample :
    download_symbol dataframe_conversion (fun _ => Except.ok (some ⟨true, [["ts", "1"]]⟩))
      ⟨"BANKNIFTY", "OPTIDX", ⟨2024, 12, 26⟩, some 49300, "X26DEC24C", "1"⟩ =
      Except.error () := rfl

/-- Claim C6 (amended): for every conversion behaviour and every behaviour of
the provider, the fetch worker consults at most `MAX_RETRIES = 3` attempts,
and: when no attempt produces a truthy response, or the truthy response
carries an empty row list — which covers every behaviour made only of
transport exceptions, falsy responses and not-ok statuses — the worker
returns the typed "No data" failure without raising; when a truthy response
carries rows and the conversion serializes them, the worker returns the
populated series; but when the uncaught conversion step raises on those
rows (as `pd.DataFrame` does on a lone malformed 2-field row), the
exception escapes the worker. -/
theorem C6_worker_outcomes :
    (∀ (convert : List RawRow → Except Unit (List RawRow))
      (attempt : ℕ → Except Unit (Option CandleResp)) (row : ContractRow),
      ((get_candles_with_retry attempt = none ∨
        ∃ r : CandleResp, get_candles_with_retry attempt = some r ∧ r.data = []) →
        download_symbol convert attempt row =
          Except.ok (row.TradingSymbol, none, some "No data")) ∧
      (∀ (r : CandleResp) (bytes : List RawRow),
        get_candles_with_retry attempt = some r → r.data ≠ [] →
        convert r.data = Except.ok bytes →
        download_symbol convert attempt row =
          Except.ok (row.TradingSymbol, some bytes, none)) ∧
      (∀ (r : CandleResp) (e : Unit),
        get_candles_with_retry attempt = some r → r.data ≠ [] →
        convert r.data = Except.error e →
        download_symbol convert attempt row = Except.error e)) ∧
    (∀ a b : ℕ → Except Unit (Option CandleResp),
      (∀ i, i < MAX_RETRIES → a i = b i) →
      get_candles_with_retry a = get_candles_with_retry b) := by
  constructor
  · intro convert attempt row
    refine ⟨?_, ?_, ?_⟩
    · rintro (hr | ⟨r, hr, hdata⟩)
      · simp [download_symbol, hr]
      · simp [download_symbol, hr, hdata]
    · intro r bytes hr hdata hconv
      have hde : r.data.isEmpty = false := by simp [List.isEmpty_iff, hdata]
      simp [download_symbol, hr, hde, hconv]
    · intro r e hr hdata hconv
      have hde : r.data.isEmpty = false := by simp [List.isEmpty_iff, hdata]
      simp [download_symbol, hr, hde, hconv]
  · intro a b hab
    exact get_candles_loop_congr a b MAX_RETRIES 0 (fun j hj => hab j (by omega))

/-- Concrete instance of the amended C6's retry-budget part: two providers
agreeing on the first three attempts produce the same retry result. -/
theorem C6_worker_outcomes_witness :
    get_candles_with_retry (fun _ => Except.ok none) =
      get_candles_with_retry (fun i => if i < 3 then Except.ok none else Except.error ()) :=
  C6_worker_outcomes.2 (fun _ => Except.ok none)
    (fun i => if i < 3 then Except.ok none else Except.error ())
    (fun i hi => by simp [show i < 3 from hi])

end NiftyMonthly

namespace NiftyMonthly

/-- Claim C7: when no OPTIDX row of the index has an expiry equal to today's
date, `process_index` returns the skipped outcome having invoked neither the
strike-range computation (so no historical-data fetch) nor the contract
filter. -/
theorem C7_skip_without_range_call (df : List ContractRow) (symbol : String)
    (cfg : SymbolConfig) (today : PDate) (hist : Option HistoricalSummary)
    (worker : ContractRow → Except Unit (String × Option (List RawRow) × Option String))
    (h : ∀ r ∈ df, r.Symbol = symbol → r.Instrument = "OPTIDX" → r.Expiry ≠ today) :
    process_index df symbol cfg today hist worker = ⟨Except.ok none, 0, 0⟩ := by
  have hex : (is_today_expiry df symbol today).1 = false := by
    simp only [is_today_expiry]
    rw [List.any_eq_false]
    intro r hr
    rw [List.mem_filter] at hr
    obtain ⟨hrdf, hcond⟩ := hr
    simp only [Bool.and_eq_true, beq_iff_eq] at hcond
    simp only [beq_iff_eq, beq_eq_false_iff_ne, ne_eq]
    exact h r hrdf hcond.1 hcond.2
  simp [process_index, hex]

/-- Concrete instance of C7 with the hypothesis discharged: the only OPTIDX
row expires one week earlier, so the index is skipped with zero range-call
count. -/
theorem C7_skip_without_range_call_witness :
    process_index [⟨"BANKNIFTY", "OPTIDX", ⟨2024, 12, 19⟩, some 49300, "X19DEC24C", "1"⟩]
      "BANKNIFTY" ⟨"99926009", 100, 100, 1000⟩ ⟨2024, 12, 26⟩ (some ⟨50230, 51870, 51500⟩)
      (fun r => Except.ok (r.TradingSymbol, none, some "No data")) =
      ⟨Except.ok none, 0, 0⟩ :=
  C7_skip_without_range_call _ _ _ _ _ _ (by
    intro r hr h1 h2
    simp only [List.mem_singleton] at hr
    subst hr
    decide)

/-- Claim C8: if processing one index raises, the orchestrator loop catches
and logs it and still processes every subsequent index: the run over
`pre ++ s :: post` records the error outcome for `s` and behaves on `pre`
and `post` exactly as it does on them alone. -/
theorem C8_loop_survives_index_error {A : Type} (proc : String → Except Unit (Option A))
    (pre post : List String) (s : String) (e : Unit)
    (hs : proc s = Except.error e) :
    main_loop proc (pre ++ s :: post) =
      main_loop proc pre ++ (s, IndexOutcome.errorLogged) :: main_loop proc post := by
  induction pre with
  | nil => simp [main_loop, hs]
  | cons t rest ih => simp [main_loop, ih]

/-- Concrete instance of C8 with the hypothesis discharged: the middle index
raises, the loop logs it and still processes the last index. -/
theorem C8_loop_survives_index_error_witness :
    main_loop (fun t => if t = "FINNIFTY" then Except.error () else Except.ok (none : Option ℕ))
      (["BANKNIFTY"] ++ "FINNIFTY" :: ["MIDCPNIFTY"]) =
      main_loop
        (fun t => if t = "FINNIFTY" then Except.error () else Except.ok (none : Option ℕ))
        ["BANKNIFTY"] ++
        ("FINNIFTY", IndexOutcome.errorLogged) ::
        main_loop
          (fun t => if t = "FINNIFTY" then Except.error () else Except.ok (none : Option ℕ))
          ["MIDCPNIFTY"] :=
  C8_loop_survives_index_error _ ["BANKNIFTY"] ["MIDCPNIFTY"] "FINNIFTY" () (by simp)

end NiftyMonthly
